import Mathlib

set_option maxRecDepth 4000
set_option linter.unusedVariables false

/-!
Shallow embedding of the Moltbot news-crawler pipeline
(modules/moltbot: crawler.py, filter.py, analyzer.py, connector.py, main.py)
together with theorems settling the specification claims.

External effects (HTTP transport, the HTML parser of the bs4 library, the
enumeration order of a Python set) are modelled as explicit inputs; every
function of the repository itself is translated directly from the source.
-/

/-! ## Python primitives -/

/-- Python str() applied to an Optional[str] value: None prints as "None". -/
def pyOptStr : Option String → String
  | none => "None"
  | some s => s

/-- Python truthiness of an Optional[str]: None and the empty string are falsy. -/
def pyTruthy : Option String → Bool
  | none => false
  | some s => !s.data.isEmpty

/-- Python s[:n], the character-prefix slice. -/
def pySlice (s : String) (n : Nat) : String := ⟨s.data.take n⟩

theorem pySlice_length_le (s : String) (n : Nat) : (pySlice s n).length ≤ n :=
  List.length_take_le n s.data

theorem pySlice_of_short (s : String) (n : Nat) (h : s.length ≤ n) : pySlice s n = s := by
  cases s with
  | mk data => exact congrArg String.mk (List.take_of_length_le h)

/-! ## crawler.py : NewsCrawler.fetch

The transport layer (requests.Session.get) is the external input: it either
delivers a response with a status code and a body text, or raises a
RequestException with a message. -/

inductive HttpOutcome where
  | resp (statusCode : Nat) (text : String)
  | exn (msg : String)
  deriving Repr, DecidableEq

/-- Result record of crawler.py (dataclass CrawlResult). -/
structure CrawlResult where
  url : String
  html : String
  status_code : Nat
  success : Bool
  error_message : Option String
  deriving Repr, DecidableEq

/-- NewsCrawler.fetch (crawler.py lines 43-68): on a delivered response the
result carries the response text and `success = (status_code == 200)`; on a
RequestException the result has empty html, status 0 and the error message. -/
def NewsCrawler.fetch (url : String) (net : HttpOutcome) : CrawlResult :=
  match net with
  | .resp status text =>
      { url := url, html := text, status_code := status,
        success := status == 200, error_message := none }
  | .exn e =>
      { url := url, html := "", status_code := 0,
        success := false, error_message := some e }

/-- The fetch-result invariant exactly as the specification states it. -/
def FetchInvariantClaim : Prop :=
  ∀ (url : String) (net : HttpOutcome),
    ((NewsCrawler.fetch url net).success = true →
      (NewsCrawler.fetch url net).status_code = 200 ∧
      (NewsCrawler.fetch url net).html ≠ "") ∧
    ((NewsCrawler.fetch url net).success = false →
      (NewsCrawler.fetch url net).html = "")

/-! ## filter.py : TextFilter

BeautifulSoup is an external library: its parse of the raw HTML is modelled
as the resulting node tree (a list of top-level DOM nodes).  Tag removal
(decompose), text extraction with strip=True, and find_all are translated
from the calls filter.py makes. -/

inductive Dom where
  | text (s : String)
  | elem (tag : String) (classes : List String) (children : List Dom)

/-- Lower-casing a string character by character (ASCII case fold, enough for
the ASCII tag/class names the filter compares). -/
def lowerStr (s : String) : String := ⟨s.data.map Char.toLower⟩

/-- Does the first character list stand at the head of the second? -/
def leadsWith : List Char → List Char → Bool
  | [], _ => true
  | _ :: _, [] => false
  | c :: cs, d :: ds => c == d && leadsWith cs ds

/-- Does the first character list occur contiguously inside the second?
(model of re.search with a literal pattern). -/
def occursIn : List Char → List Char → Bool
  | a, [] => a.isEmpty
  | a, b :: bs => leadsWith a (b :: bs) || occursIn a bs

/-- Tags whose subtrees TextFilter removes (filter.py REMOVE_TAGS). -/
def REMOVE_TAGS : List String :=
  ["script", "style", "nav", "header", "footer",
   "aside", "advertisement", "iframe", "noscript"]

/-- Noise class substrings (filter.py NOISE_CLASSES). -/
def NOISE_CLASSES : List String :=
  ["ad", "ads", "advertisement", "sidebar", "menu",
   "navigation", "footer", "header", "social", "share"]

/-- find_all(class_=re.compile(name, re.I)) matches an element when any of
its classes contains the noise name, case-insensitively. -/
def matchesNoise (classes : List String) : Bool :=
  NOISE_CLASSES.any fun noise =>
    classes.any fun c => occursIn (lowerStr noise).data (lowerStr c).data

mutual
/-- element.decompose() over a whole pass: drop every element whose tag and
classes satisfy p, recursively, keeping document order of survivors. -/
def pruneDom (p : String → List String → Bool) : Dom → Option Dom
  | .text s => some (.text s)
  | .elem tag cls ch =>
      if p tag cls then none else some (.elem tag cls (pruneDomList p ch))

def pruneDomList (p : String → List String → Bool) : List Dom → List Dom
  | [] => []
  | d :: ds =>
      match pruneDom p d with
      | none => pruneDomList p ds
      | some d' => d' :: pruneDomList p ds
end

mutual
/-- Descendant text fragments in document order. -/
def domStrings : Dom → List String
  | .text s => [s]
  | .elem _ _ ch => domStringsList ch

def domStringsList : List Dom → List String
  | [] => []
  | d :: ds => domStrings d ++ domStringsList ds
end

/-- Python str.strip(): remove leading and trailing whitespace. -/
def pyStrip (s : String) : String :=
  ⟨((s.data.dropWhile Char.isWhitespace).reverse.dropWhile Char.isWhitespace).reverse⟩

/-- Tag.get_text(strip=True): concatenation of stripped, non-blank text
fragments of the subtree. -/
def getTextStrip (d : Dom) : String :=
  String.join (((domStrings d).map pyStrip).filter fun s => !s.data.isEmpty)

mutual
/-- soup.find_all(tags): every element of the forest whose tag is among the
given names, in document (pre-)order, nested matches included. -/
def findAllTags (tags : List String) : Dom → List Dom
  | .text _ => []
  | .elem tag cls ch =>
      (if tags.contains tag then [Dom.elem tag cls ch] else []) ++
        findAllTagsList tags ch

def findAllTagsList (tags : List String) : List Dom → List Dom
  | [] => []
  | d :: ds => findAllTags tags d ++ findAllTagsList tags ds
end

/-- soup.find(tag): first match in document order, if any. -/
def findFirstTag (tag : String) (ds : List Dom) : Option Dom :=
  (findAllTagsList [tag] ds).head?

/-- Result record of filter.py (dataclass FilteredContent). -/
structure FilteredContent where
  title : String
  body : String
  paragraphs : List String
  word_count : Nat

/-- TextFilter.extract (filter.py lines 45-88): two removal passes, title from
the first h1 (else the title element), paragraphs from every p/article whose
stripped text reaches min_paragraph_length, body the blank-line join. -/
def TextFilter.extract (min_paragraph_length : Nat) (soup : List Dom) :
    FilteredContent :=
  let s1 := pruneDomList (fun tag _ => REMOVE_TAGS.contains tag) soup
  let s2 := pruneDomList (fun _ cls => matchesNoise cls) s1
  let title :=
    match findFirstTag "h1" s2 with
    | some t => getTextStrip t
    | none =>
        match findFirstTag "title" s2 with
        | some t => getTextStrip t
        | none => ""
  let paragraphs :=
    ((findAllTagsList ["p", "article"] s2).map getTextStrip).filter
      fun t => min_paragraph_length ≤ t.length
  let body := String.intercalate "\n\n" paragraphs
  { title := title, body := body, paragraphs := paragraphs,
    word_count := body.length }

/-! ## analyzer.py : KeywordAnalyzer

jieba is an optional dependency; the embedded tokenizer is the regex
fallback re.findall applied when it is absent
(runs of CJK ideographs, runs of Latin letters, runs of digits; the digit
class is modelled as ASCII digits, the only ones the claims exercise). -/

/-- Stop-word set of analyzer.py (Chinese, Japanese, English). -/
def STOP_WORDS : List String :=
  ["的", "了", "是", "在", "我", "有", "和", "就", "不", "人", "都", "一", "一個",
   "上", "也", "很", "到", "說", "要", "去", "你", "會", "著", "沒有", "看", "好",
   "這", "那", "對", "能", "她", "他", "它", "們", "為", "與", "等", "被", "讓",
   "の", "に", "は", "を", "た", "が", "で", "て", "と", "し", "れ", "さ", "ある",
   "いる", "も", "する", "から", "な", "こと", "として", "い", "や", "など",
   "the", "a", "an", "is", "are", "was", "were", "be", "been", "being",
   "have", "has", "had", "do", "does", "did", "will", "would", "could",
   "should", "may", "might", "must", "shall", "can", "need", "dare",
   "to", "of", "in", "for", "on", "with", "at", "by", "from", "as",
   "into", "through", "during", "before", "after", "above", "below",
   "and", "but", "or", "nor", "so", "yet", "both", "either", "neither",
   "this", "that", "these", "those", "i", "you", "he", "she", "it", "we", "they"]

def isCJK (c : Char) : Bool := 0x4e00 ≤ c.toNat && c.toNat ≤ 0x9fff

def isUpperLatin (c : Char) : Bool := 'A' ≤ c && c ≤ 'Z'

def isLowerLatin (c : Char) : Bool := 'a' ≤ c && c ≤ 'z'

def isLatin (c : Char) : Bool := isUpperLatin c || isLowerLatin c

def isAsciiDigit (c : Char) : Bool := '0' ≤ c && c ≤ '9'

/-- Character class of the fallback token regex: CJK run / letter run /
digit run are the three alternatives, in that order. -/
def tokClass (c : Char) : Option Nat :=
  if isCJK c then some 0
  else if isLatin c then some 1
  else if isAsciiDigit c then some 2
  else none

/-- re.findall of the fallback pattern: maximal runs of a single character
class, in order of appearance; other characters separate runs. -/
def tokenizeRuns : List Char → List String
  | [] => []
  | c :: rest =>
    match tokClass c with
    | none => tokenizeRuns rest
    | some k =>
      match rest, tokenizeRuns rest with
      | r :: _, t :: ts =>
          if tokClass r = some k then ⟨c :: t.data⟩ :: ts else ⟨[c]⟩ :: t :: ts
      | _, ts => ⟨[c]⟩ :: ts

/-- KeywordAnalyzer.tokenize (analyzer.py lines 61-83), fallback branch:
tokenize, then keep words long enough whose lower-cased form is not a
stop word, lower-casing the kept words. -/
def KeywordAnalyzer.tokenize (min_word_length : Nat) (text : String) : List String :=
  let words := tokenizeRuns text.data
  (words.filter fun w =>
      decide (min_word_length ≤ w.length) && !(STOP_WORDS.contains (lowerStr w))).map
    lowerStr

/-- collections.Counter accumulation step: increment an existing key or
append a new one (keys stay in first-occurrence order). -/
def bumpCount : List (String × Nat) → String → List (String × Nat)
  | [], w => [(w, 1)]
  | (k, n) :: rest, w =>
      if k = w then (k, n + 1) :: rest else (k, n) :: bumpCount rest w

/-- collections.Counter over a word list, as its (key, count) items in
first-occurrence key order. -/
def countOcc (ws : List String) : List (String × Nat) := ws.foldl bumpCount []

/-- Stable insertion by descending count: an element moves ahead only of
strictly smaller counts, so equal counts keep their existing order. -/
def insertByCount (p : String × Nat) : List (String × Nat) → List (String × Nat)
  | [] => [p]
  | q :: qs => if q.2 > p.2 then q :: insertByCount p qs else p :: q :: qs

/-- Stable descending sort by count (heapq.nlargest is stable on its
input order, and Counter items are in first-occurrence order). -/
def sortByCountDesc : List (String × Nat) → List (String × Nat)
  | [] => []
  | p :: ps => insertByCount p (sortByCountDesc ps)

/-- Counter.most_common(n). -/
def mostCommon (n : Nat) (counts : List (String × Nat)) : List (String × Nat) :=
  (sortByCountDesc counts).take n

/-! ### Entity extraction (KeywordAnalyzer._extract_entities)

Three regex pattern classes, scanned left to right, non-overlapping,
greedy; matches are pooled in pattern order and then passed through
Python's list(set(...)), whose enumeration order is not specified. -/

/-- Match of one capitalized word [A-Z][a-z]+ at the head of the input:
the word's characters and the remaining input. -/
def matchCapWord : List Char → Option (List Char × List Char)
  | [] => none
  | c :: rest =>
    if isUpperLatin c then
      let lows := rest.takeWhile isLowerLatin
      if lows.isEmpty then none
      else some (c :: lows, rest.drop lows.length)
    else none

/-- Greedy repetition of the group (whitespace+ capitalized word): the
matched extension and the remaining input (empty extension when the group
never matches). -/
def matchNameGroups : Nat → List Char → List Char × List Char
  | 0, cs => ([], cs)
  | fuel + 1, cs =>
    let ws := cs.takeWhile Char.isWhitespace
    if ws.isEmpty then ([], cs)
    else
      match matchCapWord (cs.drop ws.length) with
      | none => ([], cs)
      | some (word, rest) =>
          let more := matchNameGroups fuel rest
          (ws ++ word ++ more.1, more.2)

/-- re.findall of the first entity pattern (two or more consecutive
capitalized Latin words): left-to-right scan, non-overlapping greedy
matches; a lone capitalized word is not a match and the scan moves on
by one character. -/
def scanCapNames : Nat → List Char → List String
  | 0, _ => []
  | _, [] => []
  | fuel + 1, c :: cs =>
    match matchCapWord (c :: cs) with
    | some (word, rest) =>
        let ext := matchNameGroups rest.length rest
        if ext.1.isEmpty then scanCapNames fuel cs
        else String.mk (word ++ ext.1) :: scanCapNames fuel ext.2
    | none => scanCapNames fuel cs

/-- Organization suffixes of the second entity pattern. -/
def ORG_SUFFIXES : List (List Char) :=
  [['公', '司'], ['集', '團'], ['銀', '行'], ['企', '業']]

/-- Honorific suffixes of the third entity pattern. -/
def PERSON_SUFFIXES : List (List Char) :=
  [['先', '生'], ['女', '士'], ['總', '裁'], ['董', '事']]

/-- First suffix alternative standing at the head of the input, if any. -/
def matchSuffix (sufs : List (List Char)) (cs : List Char) :
    Option (List Char × List Char) :=
  sufs.findSome? fun suf =>
    if leadsWith suf cs then some (suf, cs.drop suf.length) else none

/-- One attempt of CJK{k} followed by a suffix alternative. -/
def tryCJKLen (k : Nat) (sufs : List (List Char)) (cs : List Char) :
    Option (List Char × List Char) :=
  let pre := cs.take k
  if pre.length = k && pre.all isCJK then
    match matchSuffix sufs (cs.drop k) with
    | some (suf, rest) => some (pre ++ suf, rest)
    | none => none
  else none

/-- Greedy bounded repetition: the lengths are tried longest first, the
backtracking order of a greedy {m,n} quantifier. -/
def matchCJKEntity : List Nat → List (List Char) → List Char →
    Option (List Char × List Char)
  | [], _, _ => none
  | k :: ks, sufs, cs =>
    match tryCJKLen k sufs cs with
    | some r => some r
    | none => matchCJKEntity ks sufs cs

/-- re.findall of a CJK-run + suffix pattern: left-to-right scan,
non-overlapping greedy matches. -/
def scanCJKEntities (ks : List Nat) (sufs : List (List Char)) :
    Nat → List Char → List String
  | 0, _ => []
  | _, [] => []
  | fuel + 1, c :: cs =>
    match matchCJKEntity ks sufs (c :: cs) with
    | some (m, rest) => String.mk m :: scanCJKEntities ks sufs fuel rest
    | none => scanCJKEntities ks sufs fuel cs

/-- The pooled entity matches of _extract_entities (analyzer.py lines
121-131), in pattern order, before deduplication. -/
def extractEntitiesPool (text : String) : List String :=
  scanCapNames text.data.length text.data ++
    scanCJKEntities [4, 3, 2] ORG_SUFFIXES text.data.length text.data ++
    scanCJKEntities [3, 2] PERSON_SUFFIXES text.data.length text.data

/-- Admissible results of Python list(set(xs)): a duplicate-free list with
exactly the members of xs, in an order the language does not specify. -/
def IsSetEnum (xs out : List String) : Prop :=
  out.Nodup ∧ (∀ a ∈ out, a ∈ xs) ∧ (∀ a ∈ xs, a ∈ out)

/-- Stable first-occurrence deduplication, the order the specification
asks for (spec §4.3/§9); written from the spec's words, for comparison
with the source's unordered list(set(...)). -/
def dedupFirstAux : List String → List String → List String
  | _, [] => []
  | seen, a :: l =>
      if a ∈ seen then dedupFirstAux seen l
      else a :: dedupFirstAux (a :: seen) l

def dedupFirst (l : List String) : List String := dedupFirstAux [] l

/-- Result record of analyzer.py (dataclass AnalysisResult). -/
structure AnalysisResult where
  keywords : List (String × Nat)
  total_words : Nat
  unique_words : Nat
  top_entities : List String

/-- KeywordAnalyzer.analyze (analyzer.py lines 85-109).  The pick argument
is the set-enumeration order chosen by the Python runtime inside
_extract_entities; theorems constrain it through IsSetEnum. -/
def KeywordAnalyzer.analyze (top_n min_word_length : Nat)
    (pick : List String → List String) (text : String) : AnalysisResult :=
  let words := KeywordAnalyzer.tokenize min_word_length text
  let word_counts := countOcc words
  let top_keywords := mostCommon top_n word_counts
  let entities := pick (extractEntitiesPool text)
  { keywords := top_keywords, total_words := words.length,
    unique_words := word_counts.length, top_entities := entities.take 10 }

/-! ## connector.py : LLM connectors

The HTTP POST and the JSON decode of the response happen inside one try
block; their combined outcome is the external input: an exception (raised
and caught, transport or parse), a JSON body carrying an "error" object, or
a body of the success shape.  Each generate function returns the LLMResponse
together with the number of network calls attempted. -/

structure LLMResponse where
  content : String
  model : String
  tokens_used : Nat
  success : Bool
  error_message : Option String
  deriving Repr, DecidableEq

inductive LLMNetOutcome where
  | exn (msg : String)
  | errorField (msg : String)
  | ok (content : String) (total_tokens : Nat)
  deriving Repr, DecidableEq

/-- OpenAIConnector.generate (connector.py lines 82-117): a missing or empty
key short-circuits before the request; otherwise the outcome is folded into
an LLMResponse, never re-raised. -/
def OpenAIConnector.generate (api_key : Option String) (model : String)
    (net : LLMNetOutcome) (prompt : String) (system_prompt : Option String) :
    LLMResponse × Nat :=
  if !pyTruthy api_key then
    (⟨"", model, 0, false, some "API key not configured"⟩, 0)
  else
    match net with
    | .exn e => (⟨"", model, 0, false, some e⟩, 1)
    | .errorField m => (⟨"", model, 0, false, some m⟩, 1)
    | .ok c t => (⟨c, model, t, true, none⟩, 1)

/-- GeminiConnector.generate (connector.py lines 133-161): same contract;
the API does not report token usage, so tokens_used is 0 on success. -/
def GeminiConnector.generate (api_key : Option String) (model : String)
    (net : LLMNetOutcome) (prompt : String) (system_prompt : Option String) :
    LLMResponse × Nat :=
  if !pyTruthy api_key then
    (⟨"", model, 0, false, some "API key not configured"⟩, 0)
  else
    match net with
    | .exn e => (⟨"", model, 0, false, some e⟩, 1)
    | .errorField m => (⟨"", model, 0, false, some m⟩, 1)
    | .ok c _ => (⟨c, model, 0, true, none⟩, 1)

/-- The fixed summarization instruction template of both connectors. -/
def summarizePrompt (text : String) : String :=
  "請用繁體中文簡要摘要以下新聞內容（約 100 字）：\n\n" ++ text

/-- The shared result shape of both summarize methods: the content on
success, else the failure-prefixed error text. -/
def summarizeFromResponse (r : LLMResponse) : String :=
  if r.success then r.content else "摘要失敗: " ++ pyOptStr r.error_message

/-- OpenAIConnector.summarize (connector.py lines 119-122), with the
network-call count of the underlying generate. -/
def OpenAIConnector.summarize (api_key : Option String) (model : String)
    (net : LLMNetOutcome) (text : String) : String × Nat :=
  let g := OpenAIConnector.generate api_key model net (summarizePrompt text) none
  (summarizeFromResponse g.1, g.2)

/-- GeminiConnector.summarize (connector.py lines 163-166). -/
def GeminiConnector.summarize (api_key : Option String) (model : String)
    (net : LLMNetOutcome) (text : String) : String × Nat :=
  let g := GeminiConnector.generate api_key model net (summarizePrompt text) none
  (summarizeFromResponse g.1, g.2)

/-! ## connector.py : messaging -/

/-- Result record of connector.py (dataclass MessageResult). -/
structure MessageResult where
  platform : String
  success : Bool
  message_id : Option String
  error_message : Option String
  deriving Repr, DecidableEq

/-- One option dict of send_with_quick_reply: label is required, the other
keys optional (an Option field models presence of the key). -/
structure QROption where
  label : String
  text : Option String
  data : Option String
  display_text : Option String
  deriving Repr, DecidableEq

/-- One LINE quick-reply action object. -/
inductive QRAction where
  | postback (label data displayText : String)
  | message (label text : String)
  deriving Repr, DecidableEq

/-- The action built for one option (connector.py lines 363-377): a
postback action when a data key is present, else a message action; the
display text and reply text default to the label. -/
def mkQRAction (opt : QROption) : QRAction :=
  match opt.data with
  | some d => .postback opt.label d (opt.display_text.getD opt.label)
  | none => .message opt.label (opt.text.getD opt.label)

/-- The items list built by send_with_quick_reply: the loop runs over
options[:13] (the LINE cap), one action item per kept option. -/
def LINEMessagingConnector.quickReplyItems (options : List QROption) :
    List QRAction :=
  (options.take 13).map mkQRAction

/-- The single text message with quickReply payload that
send_with_quick_reply hands unchanged to _send_messages. -/
structure QuickReplyMessage where
  text : String
  items : List QRAction
  deriving Repr, DecidableEq

/-- LINEMessagingConnector.send_with_quick_reply (connector.py lines
352-384), up to the transmitted payload. -/
def LINEMessagingConnector.send_with_quick_reply (message : String)
    (options : List QROption) : QuickReplyMessage :=
  { text := message, items := LINEMessagingConnector.quickReplyItems options }

/-! ## main.py : MoltbotNewsCrawler.process

External inputs of one run: the transport outcome of the fetch, the bs4
parse (a function from the raw html to the node forest), the configured
LLM's summarize closure, the set-enumeration order inside the analyzer, and
the optional messenger.  The trace records the texts passed to
llm.summarize, so that truncation is observable. -/

/-- The result dict of process: either the fetch-failure dict (only an
error entry) or the full success dict. -/
inductive Report where
  | error (msg : String)
  | success (url title summary : String) (keywords : List (String × Nat))
      (entities : List String) (word_count : Nat)
  deriving Repr, DecidableEq

structure ProcessTrace where
  report : Report
  llmCalls : List String
  deriving Repr, DecidableEq

/-- MoltbotNewsCrawler.process (main.py lines 48-107).  The instance is
built with TextFilter() (min paragraph length 20) and KeywordAnalyzer()
(top_n 20, min word length 2). -/
def MoltbotNewsCrawler.process (url : String) (send_notification : Bool)
    (net : HttpOutcome) (parse : String → List Dom)
    (summarizer : String → String) (pick : List String → List String)
    (messenger : Option (String → MessageResult)) : ProcessTrace :=
  let crawl_result := NewsCrawler.fetch url net
  if !crawl_result.success then
    { report := .error ("爬取失敗: " ++ pyOptStr crawl_result.error_message),
      llmCalls := [] }
  else
    let filtered := TextFilter.extract 20 (parse crawl_result.html)
    let analysis := KeywordAnalyzer.analyze 20 2 pick filtered.body
    let llmInput := pySlice filtered.body 3000
    let summary := summarizer llmInput
    let _sendResult :=
      match messenger with
      | some send =>
          if send_notification then
            some (send ("📰 " ++ filtered.title ++ "\n\n" ++ summary))
          else none
      | none => none
    { report := .success url filtered.title summary (analysis.keywords.take 10)
        analysis.top_entities analysis.total_words,
      llmCalls := [llmInput] }

/-! ## Claim C3 : the fetch-result invariant -/

/-- C3, counterexample: a delivered 404 response whose body is "Not Found"
yields success=false together with a non-empty html, refuting the stated
invariant (success=false would require empty rawBody). -/
theorem fetch_invariant_refuted : ¬ FetchInvariantClaim := by
  intro h
  exact absurd ((h "u" (.resp 404 "Not Found")).2 rfl) (by decide)

/-- C3, amended: success=true holds exactly when the delivered status code
is 200 (with the response text as html, whatever it is), and on a transport
exception the result is the empty-html failure record with status 0. -/
theorem fetch_success_iff_status (url : String) (net : HttpOutcome) :
    ((NewsCrawler.fetch url net).success = true ↔
      (NewsCrawler.fetch url net).status_code = 200) ∧
    ∀ e, net = .exn e →
      NewsCrawler.fetch url net = ⟨url, "", 0, false, some e⟩ := by
  cases net with
  | resp status text =>
      refine ⟨?_, fun e he => HttpOutcome.noConfusion he⟩
      simp [NewsCrawler.fetch]
  | exn e =>
      refine ⟨?_, fun e' he => ?_⟩
      · simp [NewsCrawler.fetch]
      · injection he with h1
        subst h1
        rfl

/-- C3 witness: the amended theorem applied to a concrete timeout. -/
theorem fetch_success_iff_status_witness :
    NewsCrawler.fetch "https://news.yahoo.co.jp/" (.exn "timeout") =
      ⟨"https://news.yahoo.co.jp/", "", 0, false, some "timeout"⟩ :=
  (fetch_success_iff_status "https://news.yahoo.co.jp/" (.exn "timeout")).2
    "timeout" rfl

/-! ## Claim C1 : the fetch-failure report -/

/-- The claim exactly as stated: on a failed fetch the report is the bare
failure report whose message equals the fetch error message. -/
def FetchFailureReportClaim : Prop :=
  ∀ (url : String) (send : Bool) (net : HttpOutcome) (parse : String → List Dom)
    (summ : String → String) (pick : List String → List String)
    (msgr : Option (String → MessageResult)),
    (NewsCrawler.fetch url net).success = false →
    (MoltbotNewsCrawler.process url send net parse summ pick msgr).report =
      Report.error (pyOptStr (NewsCrawler.fetch url net).error_message)

/-- C1, counterexample: with fetch error "timeout" the report message is
"爬取失敗: timeout", not "timeout" — the code prepends a fixed prefix. -/
theorem fetch_failure_message_refuted : ¬ FetchFailureReportClaim := by
  intro h
  exact absurd
    (h "u" false (.exn "timeout") (fun _ => []) (fun _ => "") (fun l => l) none rfl)
    (by decide)

/-- C1, amended: on a failed fetch the report carries no title, summary or
keyword fields (it is the bare error report) and its message is the fixed
prefix "爬取失敗: " followed by the fetch error message. -/
theorem process_fetch_failure_report (url : String) (send : Bool)
    (net : HttpOutcome) (parse : String → List Dom) (summ : String → String)
    (pick : List String → List String) (msgr : Option (String → MessageResult))
    (h : (NewsCrawler.fetch url net).success = false) :
    (MoltbotNewsCrawler.process url send net parse summ pick msgr).report =
      Report.error ("爬取失敗: " ++ pyOptStr (NewsCrawler.fetch url net).error_message) := by
  unfold MoltbotNewsCrawler.process
  simp [h]

/-- C1 witness: the amended theorem at the spec's timeout scenario. -/
theorem process_fetch_failure_report_witness :
    (MoltbotNewsCrawler.process "u" false (.exn "timeout") (fun _ => [])
        (fun _ => "") (fun l => l) none).report =
      Report.error "爬取失敗: timeout" :=
  process_fetch_failure_report "u" false (.exn "timeout") (fun _ => [])
    (fun _ => "") (fun l => l) none rfl

/-! ## Claim C4 : process always returns a report -/

/-- C4: for every input and every behaviour of the external collaborators,
process returns a Report value: the bare failure report or the full success
report for the requested url.  Every exception a collaborator can raise is
an explicit outcome already folded into a result by the stage itself, so no
control path escapes process. -/
theorem process_always_reports (url : String) (send : Bool) (net : HttpOutcome)
    (parse : String → List Dom) (summ : String → String)
    (pick : List String → List String) (msgr : Option (String → MessageResult)) :
    (∃ e, (MoltbotNewsCrawler.process url send net parse summ pick msgr).report =
        Report.error e) ∨
    ∃ title summary keywords entities word_count,
      (MoltbotNewsCrawler.process url send net parse summ pick msgr).report =
        Report.success url title summary keywords entities word_count := by
  by_cases hs : (NewsCrawler.fetch url net).success
  · refine Or.inr
      ⟨(TextFilter.extract 20 (parse (NewsCrawler.fetch url net).html)).title,
       summ (pySlice
         (TextFilter.extract 20 (parse (NewsCrawler.fetch url net).html)).body 3000),
       (KeywordAnalyzer.analyze 20 2 pick
         (TextFilter.extract 20 (parse (NewsCrawler.fetch url net).html)).body).keywords.take
           10,
       (KeywordAnalyzer.analyze 20 2 pick
         (TextFilter.extract 20 (parse (NewsCrawler.fetch url net).html)).body).top_entities,
       (KeywordAnalyzer.analyze 20 2 pick
         (TextFilter.extract 20 (parse (NewsCrawler.fetch url net).html)).body).total_words,
       ?_⟩
    unfold MoltbotNewsCrawler.process
    simp [hs]
  · refine Or.inl
      ⟨"爬取失敗: " ++ pyOptStr (NewsCrawler.fetch url net).error_message, ?_⟩
    unfold MoltbotNewsCrawler.process
    simp [hs]

/-! ## Claim C5 : truncation before summarization -/

/-- C5: every text process passes to the summarization provider is the
3000-character prefix slice of the extracted body: its length is at most
3000, and a body of at most 3000 characters passes through unmodified. -/
theorem process_truncates_before_summarize (url : String) (send : Bool)
    (net : HttpOutcome) (parse : String → List Dom) (summ : String → String)
    (pick : List String → List String) (msgr : Option (String → MessageResult)) :
    ∀ t ∈ (MoltbotNewsCrawler.process url send net parse summ pick msgr).llmCalls,
      t = pySlice (TextFilter.extract 20 (parse (NewsCrawler.fetch url net).html)).body
            3000 ∧
      t.length ≤ 3000 ∧
      ((TextFilter.extract 20 (parse (NewsCrawler.fetch url net).html)).body.length
          ≤ 3000 →
        t = (TextFilter.extract 20 (parse (NewsCrawler.fetch url net).html)).body) := by
  intro t ht
  unfold MoltbotNewsCrawler.process at ht
  by_cases hs : (NewsCrawler.fetch url net).success
  · simp [hs] at ht
    exact ⟨ht, ht ▸ pySlice_length_le _ _, fun hlen => ht.trans (pySlice_of_short _ _ hlen)⟩
  · simp [hs] at ht

/-- C5 witness: a successful fetch of an empty page; the single summarize
call receives the (trivially short) body unmodified. -/
theorem process_truncates_witness :
    "" ∈ (MoltbotNewsCrawler.process "u" false (.resp 200 "") (fun _ => [])
        (fun _ => "") (fun l => l) none).llmCalls ∧
    ("" : String).length ≤ 3000 :=
  ⟨by decide,
    (process_truncates_before_summarize "u" false (.resp 200 "") (fun _ => [])
        (fun _ => "") (fun l => l) none "" (by decide)).2.1⟩

/-! ## Claim C6 : the quick-reply 13-option cap -/

/-- C6: the transmitted quick-reply items are exactly one action per option
of options[:13] — so their number is min(|options|, 13), entries beyond the
cap are silently dropped, and 15 supplied options yield exactly 13 items. -/
theorem quick_reply_caps_at_13 (message : String) (options : List QROption) :
    (LINEMessagingConnector.send_with_quick_reply message options).items =
      (options.take 13).map mkQRAction ∧
    (LINEMessagingConnector.send_with_quick_reply message options).items.length =
      min options.length 13 ∧
    (options.length = 15 →
      (LINEMessagingConnector.send_with_quick_reply message options).items.length = 13) := by
  have hlen :
      (LINEMessagingConnector.send_with_quick_reply message options).items.length =
        min options.length 13 := by
    simp [LINEMessagingConnector.send_with_quick_reply,
      LINEMessagingConnector.quickReplyItems, Nat.min_comm]
  exact ⟨rfl, hlen, fun h15 => by rw [hlen, h15]; decide⟩

/-- C6 witness: fifteen one-key options produce exactly thirteen items. -/
theorem quick_reply_caps_witness :
    (LINEMessagingConnector.send_with_quick_reply "pick one"
        (List.replicate 15 ⟨"opt", none, none, none⟩)).items.length = 13 :=
  (quick_reply_caps_at_13 "pick one"
      (List.replicate 15 ⟨"opt", none, none, none⟩)).2.2 (by decide)

/-! ## Claim C7 : missing credential short-circuits -/

/-- C7: with a missing (or empty) credential, both connectors return the
failure response "API key not configured" from generate, summarize reports
that failure, and in all four cases the network-call count is 0. -/
theorem generate_without_credential (api_key : Option String)
    (h : pyTruthy api_key = false) (model : String) (net : LLMNetOutcome)
    (prompt text : String) (system_prompt : Option String) :
    OpenAIConnector.generate api_key model net prompt system_prompt =
      (⟨"", model, 0, false, some "API key not configured"⟩, 0) ∧
    GeminiConnector.generate api_key model net prompt system_prompt =
      (⟨"", model, 0, false, some "API key not configured"⟩, 0) ∧
    OpenAIConnector.summarize api_key model net text =
      ("摘要失敗: API key not configured", 0) ∧
    GeminiConnector.summarize api_key model net text =
      ("摘要失敗: API key not configured", 0) := by
  refine ⟨?_, ?_, ?_, ?_⟩ <;>
    simp [OpenAIConnector.generate, GeminiConnector.generate,
      OpenAIConnector.summarize, GeminiConnector.summarize,
      summarizeFromResponse, pyOptStr, h]

/-- C7 witness: the theorem at an absent key. -/
theorem generate_without_credential_witness :
    OpenAIConnector.summarize none "gpt-4o-mini" (.ok "hi" 5) "text" =
      ("摘要失敗: API key not configured", 0) :=
  (generate_without_credential none rfl "gpt-4o-mini" (.ok "hi" 5)
      "p" "text" none).2.2.1

/-! ## Claim C10 : summarize folds failures into a marked string -/

/-- A string append with a non-empty left part is non-empty. -/
theorem strAppend_ne_empty (s t : String) (hs : s.data ≠ []) : s ++ t ≠ "" := by
  intro he
  have hd : s.data ++ t.data = [] := congrArg String.data he
  exact hs (List.append_eq_nil.mp hd).1

/-- On a failed response the shared summarize shape is the failure-prefixed
error text, which is never the empty string. -/
theorem summarizeFromResponse_failure (r : LLMResponse) (h : r.success = false) :
    summarizeFromResponse r = "摘要失敗: " ++ pyOptStr r.error_message ∧
    summarizeFromResponse r ≠ "" := by
  have heq : summarizeFromResponse r = "摘要失敗: " ++ pyOptStr r.error_message := by
    simp [summarizeFromResponse, h]
  refine ⟨heq, ?_⟩
  rw [heq]
  exact strAppend_ne_empty _ _ (by decide)

/-- Every failing OpenAIConnector.generate outcome sets an error message. -/
theorem openai_generate_failure_message (api_key : Option String) (model : String)
    (net : LLMNetOutcome) (p : String) (sys : Option String)
    (h : (OpenAIConnector.generate api_key model net p sys).1.success = false) :
    ∃ e, (OpenAIConnector.generate api_key model net p sys).1.error_message = some e := by
  by_cases hk : pyTruthy api_key
  · cases net <;> simp_all [OpenAIConnector.generate, hk]
  · simp [OpenAIConnector.generate, hk]

/-- Every failing GeminiConnector.generate outcome sets an error message. -/
theorem gemini_generate_failure_message (api_key : Option String) (model : String)
    (net : LLMNetOutcome) (p : String) (sys : Option String)
    (h : (GeminiConnector.generate api_key model net p sys).1.success = false) :
    ∃ e, (GeminiConnector.generate api_key model net p sys).1.error_message = some e := by
  by_cases hk : pyTruthy api_key
  · cases net <;> simp_all [GeminiConnector.generate, hk]
  · simp [GeminiConnector.generate, hk]

/-- C10: whenever the underlying generate result reports failure (the
missing-credential case included), both summarize methods return the
failure-prefixed string carrying the error message — a plain, non-empty
string, not a response record. -/
theorem summarize_failure_string (api_key : Option String) (model : String)
    (net : LLMNetOutcome) (text : String) :
    ((OpenAIConnector.generate api_key model net (summarizePrompt text)
          none).1.success = false →
      ∃ e,
        (OpenAIConnector.generate api_key model net (summarizePrompt text)
            none).1.error_message = some e ∧
        (OpenAIConnector.summarize api_key model net text).1 = "摘要失敗: " ++ e ∧
        (OpenAIConnector.summarize api_key model net text).1 ≠ "") ∧
    ((GeminiConnector.generate api_key model net (summarizePrompt text)
          none).1.success = false →
      ∃ e,
        (GeminiConnector.generate api_key model net (summarizePrompt text)
            none).1.error_message = some e ∧
        (GeminiConnector.summarize api_key model net text).1 = "摘要失敗: " ++ e ∧
        (GeminiConnector.summarize api_key model net text).1 ≠ "") := by
  constructor
  · intro hfail
    obtain ⟨e, he⟩ :=
      openai_generate_failure_message api_key model net (summarizePrompt text) none hfail
    obtain ⟨heq, hne⟩ := summarizeFromResponse_failure _ hfail
    exact ⟨e, he, heq.trans (by rw [he]; rfl), hne⟩
  · intro hfail
    obtain ⟨e, he⟩ :=
      gemini_generate_failure_message api_key model net (summarizePrompt text) none hfail
    obtain ⟨heq, hne⟩ := summarizeFromResponse_failure _ hfail
    exact ⟨e, he, heq.trans (by rw [he]; rfl), hne⟩

/-- C10 witness: a transport exception with a configured key. -/
theorem summarize_failure_string_witness :
    (OpenAIConnector.generate (some "k") "m" (.exn "boom")
        (summarizePrompt "text") none).1.success = false ∧
    ∃ e,
      (OpenAIConnector.generate (some "k") "m" (.exn "boom")
          (summarizePrompt "text") none).1.error_message = some e ∧
      (OpenAIConnector.summarize (some "k") "m" (.exn "boom") "text").1 =
        "摘要失敗: " ++ e ∧
      (OpenAIConnector.summarize (some "k") "m" (.exn "boom") "text").1 ≠ "" :=
  ⟨by decide, (summarize_failure_string (some "k") "m" (.exn "boom") "text").1 (by decide)⟩

/-! ## Claim C8 : keyword filtering invariants -/

/-- Every entry of one Counter accumulation step keeps an existing key or
carries the new word. -/
theorem mem_bumpCount_fst {acc : List (String × Nat)} {w : String}
    {p : String × Nat} (hp : p ∈ bumpCount acc w) :
    p.1 = w ∨ p.1 ∈ acc.map Prod.fst := by
  induction acc with
  | nil =>
      simp [bumpCount] at hp
      left
      rw [hp]
  | cons q rest ih =>
      obtain ⟨k, n⟩ := q
      by_cases hk : k = w
      · simp [bumpCount, hk] at hp
        rcases hp with hp | hp
        · left; rw [hp]
        · right; exact List.mem_map_of_mem Prod.fst (List.mem_cons_of_mem _ hp)
      · simp [bumpCount, hk] at hp
        rcases hp with hp | hp
        · right
          rw [hp]
          exact List.mem_map_of_mem Prod.fst (List.mem_cons_self _ _)
        · rcases ih hp with h | h
          · left; exact h
          · right
            rcases List.mem_map.mp h with ⟨q', hq', hfst⟩
            exact hfst ▸ List.mem_map_of_mem Prod.fst (List.mem_cons_of_mem _ hq')

/-- Keys of the folded Counter all occur in the accumulator or the input. -/
theorem foldl_bumpCount_fst :
    ∀ (ws : List String) (acc : List (String × Nat)) (p : String × Nat),
      p ∈ ws.foldl bumpCount acc → p.1 ∈ acc.map Prod.fst ∨ p.1 ∈ ws := by
  intro ws
  induction ws with
  | nil =>
      intro acc p hp
      exact Or.inl (List.mem_map_of_mem Prod.fst hp)
  | cons w ws ih =>
      intro acc p hp
      rcases ih (bumpCount acc w) p hp with h | h
      · rcases List.mem_map.mp h with ⟨q, hq, hfst⟩
        rcases mem_bumpCount_fst hq with h1 | h1
        · right
          rw [← hfst, h1]
          exact List.mem_cons_self _ _
        · left
          exact hfst ▸ h1
      · right
        exact List.mem_cons_of_mem _ h

/-- Every key of the Counter occurs in the counted word list. -/
theorem countOcc_fst_mem {ws : List String} {p : String × Nat}
    (hp : p ∈ countOcc ws) : p.1 ∈ ws := by
  rcases foldl_bumpCount_fst ws [] p hp with h | h
  · simp at h
  · exact h

/-- Membership through the stable insertion step. -/
theorem mem_insertByCount {p q : String × Nat} {l : List (String × Nat)} :
    q ∈ insertByCount p l ↔ q = p ∨ q ∈ l := by
  induction l with
  | nil => simp [insertByCount]
  | cons r rs ih =>
      by_cases h : r.2 > p.2
      · simp [insertByCount, h, ih]
        tauto
      · simp [insertByCount, h]

/-- The stable sort permutes its input, so membership is unchanged. -/
theorem mem_sortByCountDesc {q : String × Nat} {l : List (String × Nat)} :
    q ∈ sortByCountDesc l ↔ q ∈ l := by
  induction l with
  | nil => simp [sortByCountDesc]
  | cons p ps ih => simp [sortByCountDesc, mem_insertByCount, ih]

/-- Character-wise lower-casing keeps the character count. -/
theorem lowerStr_length (s : String) : (lowerStr s).length = s.length :=
  List.length_map s.data Char.toLower

/-- Every token tokenize emits is long enough and is not a stop word. -/
theorem tokenize_term_props {min_word_length : Nat} {text : String} {w : String}
    (hw : w ∈ KeywordAnalyzer.tokenize min_word_length text) :
    min_word_length ≤ w.length ∧ STOP_WORDS.contains w = false := by
  unfold KeywordAnalyzer.tokenize at hw
  rcases List.mem_map.mp hw with ⟨w0, hw0, rfl⟩
  have hcond := (List.mem_filter.mp hw0).2
  simp only [Bool.and_eq_true] at hcond
  obtain ⟨hlen, hstop⟩ := hcond
  refine ⟨?_, ?_⟩
  · rw [lowerStr_length]
    exact of_decide_eq_true hlen
  · simpa using hstop

/-- C8: rankedKeywords never exceeds top_n entries, and every term it ranks
is a kept token — at least min_word_length characters and not a stop word. -/
theorem analyze_keywords_filtered (top_n min_word_length : Nat)
    (pick : List String → List String) (text : String) :
    (KeywordAnalyzer.analyze top_n min_word_length pick text).keywords.length
      ≤ top_n ∧
    ∀ p ∈ (KeywordAnalyzer.analyze top_n min_word_length pick text).keywords,
      min_word_length ≤ p.1.length ∧ STOP_WORDS.contains p.1 = false := by
  constructor
  · exact List.length_take_le _ _
  · intro p hp
    have hp1 :
        p ∈ sortByCountDesc
          (countOcc (KeywordAnalyzer.tokenize min_word_length text)) :=
      List.mem_of_mem_take hp
    have hp2 : p ∈ countOcc (KeywordAnalyzer.tokenize min_word_length text) :=
      mem_sortByCountDesc.mp hp1
    exact tokenize_term_props (countOcc_fst_mem hp2)

/-- C8 witness: a small English text; "hello" is ranked with count 2 and
satisfies both filters. -/
theorem analyze_keywords_filtered_witness :
    ("hello", 2) ∈
      (KeywordAnalyzer.analyze 20 2 (fun l => l) "hello world hello").keywords ∧
    2 ≤ ("hello" : String).length ∧ STOP_WORDS.contains "hello" = false :=
  ⟨by decide,
    (analyze_keywords_filtered 20 2 (fun l => l) "hello world hello").2
      ("hello", 2) (by decide)⟩

/-! ## Claim C9 : minimum paragraph length -/

/-- The paragraphs field of extract, spelled out. -/
theorem extract_paragraphs_eq (min_paragraph_length : Nat) (soup : List Dom) :
    (TextFilter.extract min_paragraph_length soup).paragraphs =
      ((findAllTagsList ["p", "article"]
          (pruneDomList (fun _ cls => matchesNoise cls)
            (pruneDomList (fun tag _ => REMOVE_TAGS.contains tag) soup))).map
          getTextStrip).filter
        (fun t => decide (min_paragraph_length ≤ t.length)) := rfl

/-- C9: every paragraph extract returns has at least the configured minimum
number of characters; shorter fragments are filtered out. -/
theorem extract_paragraph_min_length (min_paragraph_length : Nat)
    (soup : List Dom) :
    ∀ p ∈ (TextFilter.extract min_paragraph_length soup).paragraphs,
      min_paragraph_length ≤ p.length := by
  intro p hp
  rw [extract_paragraphs_eq] at hp
  exact of_decide_eq_true (List.mem_filter.mp hp).2

/-- C9 witness: one long paragraph survives the default threshold 20 and
the theorem bounds its length. -/
theorem extract_paragraph_min_length_witness :
    "This paragraph is long enough to keep." ∈
      (TextFilter.extract 20
        [Dom.elem "p" []
          [Dom.text "This paragraph is long enough to keep."]]).paragraphs ∧
    20 ≤ ("This paragraph is long enough to keep." : String).length :=
  ⟨by decide,
    extract_paragraph_min_length 20
      [Dom.elem "p" [] [Dom.text "This paragraph is long enough to keep."]]
      "This paragraph is long enough to keep." (by decide)⟩

/-! ## Claim C2 : entity deduplication order -/

/-- The claim exactly as stated: inside analyze the pooled entity matches
are deduplicated stably — whatever enumeration the runtime set produces
equals the first-occurrence dedup — and top_entities is its first 10. -/
def StableEntityDedupClaim : Prop :=
  ∀ (text : String) (pick : List String → List String),
    IsSetEnum (extractEntitiesPool text) (pick (extractEntitiesPool text)) →
    pick (extractEntitiesPool text) = dedupFirst (extractEntitiesPool text) ∧
    (KeywordAnalyzer.analyze 20 2 pick text).top_entities =
      (dedupFirst (extractEntitiesPool text)).take 10

/-- C2, counterexample: the source deduplicates with list(set(...)), whose
enumeration order is unspecified; the reversed enumeration of the pool of
"Alice Smith met Bob Jones" is admissible yet differs from the stable
first-occurrence dedup. -/
theorem entity_dedup_stability_refuted : ¬ StableEntityDedupClaim := by
  intro h
  have h2 :=
    h "Alice Smith met Bob Jones" (fun _ => ["Bob Jones", "Alice Smith"])
      ⟨by decide, by decide, by decide⟩
  exact absurd h2.1 (by decide)

/-- C2, amended: the pooled entities are deduplicated — the result lists
each pooled entity exactly once, in an enumeration order the implementation
leaves unspecified — and top_entities is the first 10 of that list. -/
theorem entities_dedup_unordered (text : String)
    (pick : List String → List String)
    (h : IsSetEnum (extractEntitiesPool text) (pick (extractEntitiesPool text))) :
    (pick (extractEntitiesPool text)).Nodup ∧
    (∀ a, a ∈ pick (extractEntitiesPool text) ↔ a ∈ extractEntitiesPool text) ∧
    (KeywordAnalyzer.analyze 20 2 pick text).top_entities =
      (pick (extractEntitiesPool text)).take 10 := by
  obtain ⟨h1, h2, h3⟩ := h
  exact ⟨h1, fun a => ⟨fun ha => h2 a ha, fun ha => h3 a ha⟩, rfl⟩

/-- C2 witness: the stable first-occurrence dedup is itself one admissible
set enumeration; the amended theorem applies to it. -/
theorem entities_dedup_unordered_witness :
    (dedupFirst (extractEntitiesPool "Alice Smith met Bob Jones")).Nodup ∧
    (KeywordAnalyzer.analyze 20 2 dedupFirst "Alice Smith met Bob Jones").top_entities =
      (dedupFirst (extractEntitiesPool "Alice Smith met Bob Jones")).take 10 :=
  ⟨(entities_dedup_unordered "Alice Smith met Bob Jones" dedupFirst
      ⟨by decide, by decide, by decide⟩).1,
    (entities_dedup_unordered "Alice Smith met Bob Jones" dedupFirst
      ⟨by decide, by decide, by decide⟩).2.2⟩
